import Mathlib

/-!
Shallow embedding of the go-errors library (package `errors`):
the `Error` structure, its methods (`Error`, `Unwrap`, `Is`), the
constructors (`New`, `Wrap`, `Violations`, `DefaultError`), the predefined
catalog, and the stack-capture utility.

Ambient stack capture (`runtime.Stack`) is modelled by passing the captured
text / frame list as an explicit argument to each constructor: a constructor
receives the frames that `captureStackTrace` would return at that call site.
Go `error` interface values are modelled by `GoError`: either a
non-structured error (`plain`, whose `id` models the identity of the
underlying allocation, so interface `==` is identity) or a structured
`*Error` value. A `*Error` receiver or interface slot that may be nil is
modelled as `Option`.
-/

namespace GoErrors

/-- Go: `type ViolationErrorType string`. -/
abbrev ViolationErrorType := String

/-- Go: `ValidationError` struct with fields `Type`, `Field`, `Message`. -/
structure ValidationError where
  Type_ : ViolationErrorType
  Field : String
  Message : String
deriving DecidableEq, Repr

def ViolationErrorTypeRequired : ViolationErrorType := "REQUIRED"

def ViolationErrorTypeOneOf : ViolationErrorType := "ONEOF"

def ViolationErrorTypeUUID : ViolationErrorType := "UUID"

def ViolationErrorTypeMin : ViolationErrorType := "MIN"

def ViolationErrorTypeMax : ViolationErrorType := "MAX"

def ViolationErrorTypeEmail : ViolationErrorType := "EMAIL"

def ViolationErrorTypeDate : ViolationErrorType := "DATE"

def ViolationErrorTypeRequiredIf : ViolationErrorType := "REQUIRED_IF"

/-- A Go `error` interface value: either a non-structured error (identity
given by `id`) or a (non-nil) `*Error` with the six fields of the `Error`
struct.  A nil slice for `Violations` is `none`; a non-nil slice is `some`. -/
inductive GoError where
  | plain (id : Nat) (msg : String) : GoError
  | structuredMk (Type_ : String) (Code : Int) (Message : String)
      (Violations : Option (List ValidationError)) (Err : Option GoError)
      (StackTraces : List String) : GoError

/-- Go: the `Error` struct (fields `Type`, `Code`, `Message`, `Violations`,
`Err`, `StackTraces`). -/
structure Error where
  Type_ : String
  Code : Int
  Message : String
  Violations : Option (List ValidationError)
  Err : Option GoError
  StackTraces : List String

/-- Boxing a non-nil `*Error` into the `error` interface. -/
def Error.toGoError (e : Error) : GoError :=
  .structuredMk e.Type_ e.Code e.Message e.Violations e.Err e.StackTraces

/-- Go: the type assertion `target.(*Error)` on an interface value
(`none` = nil interface).  Succeeds exactly on structured values. -/
def asError : Option GoError → Option Error
  | some (.structuredMk t c m v e s) => some ⟨t, c, m, v, e, s⟩
  | _ => none

/-- Structural equality on `GoError`; on `plain` values the `id` component
makes this model Go interface identity (`==`). -/
def GoError.beq : GoError → GoError → Bool
  | .plain i m, .plain j n => i == j && m == n
  | .structuredMk t c m v e s, .structuredMk t' c' m' v' e' s' =>
      t == t' && c == c' && m == m' && v == v' &&
      (match e, e' with
       | none, none => true
       | some a, some b => a.beq b
       | _, _ => false) && s == s'
  | _, _ => false

/-- Go interface `==` on possibly-nil interface values. -/
def goEq (a b : Option GoError) : Bool :=
  match a, b with
  | none, none => true
  | some x, some y => x.beq y
  | _, _ => false

/-- The `Error() string` dispatch on an interface value: `plain` errors
return their message; structured values follow `(*Error).Error`. -/
def GoError.errorMsg : GoError → String
  | .plain _ msg => msg
  | .structuredMk _ _ m _ none _ => m
  | .structuredMk _ _ _ _ (some c) _ => c.errorMsg

/-- Go: `func (e *Error) Error() string` (nil receiver allowed); named
`Error_` because `Error.Error` would shadow the type inside its namespace. -/
def Error.Error_ (e : Option Error) : String :=
  match e with
  | none => ""
  | some er =>
    match er.Err with
    | some c => c.errorMsg
    | none => er.Message

/-- Go: `func (e *Error) Unwrap() error` (nil receiver allowed). -/
def Error.Unwrap (e : Option Error) : Option GoError :=
  match e with
  | none => none
  | some er => er.Err

/-- Go: `func (e *Error) Is(target error) bool`. -/
def Error.Is (e : Option Error) (target : Option GoError) : Bool :=
  match e with
  | none => target.isNone
  | some er =>
    match asError target with
    | some targetErr => er.Type_ == targetErr.Type_
    | none =>
      match er.Err with
      | some c => goEq (some c) target
      | none => false

/-- Go: `func New(code int64, message, errorType string) *Error`; `tr` is
the frame list `captureStackTrace()` returns at this call. -/
def New (code : Int) (message errorType : String) (tr : List String) : Error :=
  let e : Error :=
    { Type_ := errorType, Code := code, Violations := some [],
      Message := message, Err := none, StackTraces := [] }
  if e.StackTraces.length = 0 then
    { e with StackTraces := e.StackTraces ++ tr }
  else e

/-- Go: `func DefaultError() *Error`; `tr` is the capture at this call. -/
def DefaultError (tr : List String) : Error :=
  { Type_ := "INTERNAL_SERVER_ERROR", Code := 500,
    Message := "An internal server error occurred",
    Violations := some [], Err := none, StackTraces := tr }

/-- Go: `func Wrap(err error) *Error`.  `tr` is the capture inside the
`DefaultError()` call, `tr2` the capture of the (normally dead) re-capture
branch in `Wrap` itself. -/
def Wrap (err : Option GoError) (tr tr2 : List String) : Error :=
  let e := DefaultError tr
  let e := { e with Err := err }
  if e.StackTraces.length = 0 then { e with StackTraces := tr2 } else e

/-- Go: `var ErrorBadRequest = New(400, "Bad request", "BAD_REQUEST")`;
`tr` is the capture at package initialization. -/
def ErrorBadRequest (tr : List String) : Error :=
  New 400 "Bad request" "BAD_REQUEST" tr

/-- Go: `var ErrorUnauthorized = New(401, "Unauthorized", "UNAUTHORIZED")`. -/
def ErrorUnauthorized (tr : List String) : Error :=
  New 401 "Unauthorized" "UNAUTHORIZED" tr

/-- Go: `var ErrorForbidden = New(403, "Forbidden", "FORBIDDEN")`. -/
def ErrorForbidden (tr : List String) : Error :=
  New 403 "Forbidden" "FORBIDDEN" tr

/-- Go: `var ErrorNotFound = New(404, "Not found", "NOT_FOUND")`. -/
def ErrorNotFound (tr : List String) : Error :=
  New 404 "Not found" "NOT_FOUND" tr

/-- Go: `var ErrorConflict = New(409, "Conflict", "CONFLICT")`. -/
def ErrorConflict (tr : List String) : Error :=
  New 409 "Conflict" "CONFLICT" tr

/-- Go: `var ErrorUnprocessableEntity = New(422, "Unprocessable entity",
"UNPROCESSABLE_ENTITY")`. -/
def ErrorUnprocessableEntity (tr : List String) : Error :=
  New 422 "Unprocessable entity" "UNPROCESSABLE_ENTITY" tr

/-- Go: `var ErrorInternalServerError = New(500, "Internal server error",
"INTERNAL_SERVER_ERROR")`. -/
def ErrorInternalServerError (tr : List String) : Error :=
  New 500 "Internal server error" "INTERNAL_SERVER_ERROR" tr

/-- Go: `var ErrorPanic = New(500, "Panic", "PANIC")`. -/
def ErrorPanic (tr : List String) : Error :=
  New 500 "Panic" "PANIC" tr

/-- The heap of catalog singletons after package initialization with
ambient capture `tr`: each `var` is one allocation; a `*Error` catalog
pointer is the index of its cell. -/
def catalogInit (tr : List String) : List Error :=
  [ErrorBadRequest tr, ErrorUnauthorized tr, ErrorForbidden tr,
   ErrorNotFound tr, ErrorConflict tr, ErrorUnprocessableEntity tr,
   ErrorInternalServerError tr, ErrorPanic tr]

/-- Pointer (cell index) of `ErrorUnprocessableEntity` in `catalogInit`. -/
def ueIdx : Nat := 5

/-- Go: `func Violations(violations []ValidationError) *Error`:
`e := ErrorUnprocessableEntity` copies the shared pointer, `e.Violations =
violations` writes through it, and `e` (the catalog pointer) is returned.
`st` is the catalog heap, `tr` the capture at this call; the result is the
returned pointer together with the updated heap. -/
def Violations (st : List Error) (violations : Option (List ValidationError))
    (tr : List String) : Nat × List Error :=
  match st[ueIdx]? with
  | none => (ueIdx, st)
  | some e =>
    let e1 := { e with Violations := violations }
    let e2 :=
      if e1.StackTraces.length = 0 then { e1 with StackTraces := tr } else e1
    (ueIdx, st.set ueIdx e2)

/-- Go `strings.Split(s, "\n")` on the character list of `s` (a
single-character separator splits at every newline, keeping empty fields;
the empty string yields one empty field). -/
def splitNewline : List Char → List (List Char)
  | [] => [[]]
  | c :: rest =>
    if c = '\n' then [] :: splitNewline rest
    else
      match splitNewline rest with
      | g :: gs => (c :: g) :: gs
      | [] => [[c]]

/-- The whitespace predicate of Go `unicode.IsSpace` restricted to the
ASCII range. -/
def isSpaceGo (c : Char) : Bool :=
  c == ' ' || c == '\t' || c == '\n' || c == '\r' || c == '\x0B' || c == '\x0C'

/-- Go `strings.TrimSpace` on a character list: drop whitespace from both
ends. -/
def trimSpace (cs : List Char) : List Char :=
  ((cs.dropWhile isSpaceGo).reverse.dropWhile isSpaceGo).reverse

/-- Go: `func captureStackTrace() []string`: splits the text written by
`runtime.Stack` (passed here as `stackFrames`) into lines, trims each and
keeps the non-empty ones, in order. -/
def captureStackTrace (stackFrames : String) : List String :=
  let lines := splitNewline stackFrames.data
  lines.foldl
    (fun result line =>
      let trimmed := String.mk (trimSpace line)
      if trimmed != "" then result ++ [trimmed] else result)
    []

/-- A plausible `runtime.Stack` text for a deep call stack: the goroutine
header, the capture utility's own frame, and 38 application frames. -/
def goStackText : String :=
  "goroutine 1 [running]:\ngithub.com/andryhardiyanto/go-errors.captureStackTrace()\n"
    ++ String.intercalate "\n" (List.replicate 38 "app.f()")

theorem New_eq (c : Int) (m k : String) (tr : List String) :
    New c m k tr = ⟨k, c, m, some [], none, tr⟩ := by
  simp [New]

theorem Wrap_eq (err : Option GoError) (tr tr2 : List String) :
    Wrap err tr tr2 =
      ⟨"INTERNAL_SERVER_ERROR", 500, "An internal server error occurred",
       some [], err, if tr.length = 0 then tr2 else tr⟩ := by
  simp only [Wrap, DefaultError]
  split <;> rfl

theorem captureStackTrace_go (lines : List (List Char)) (acc : List String) :
    lines.foldl
      (fun result line =>
        let trimmed := String.mk (trimSpace line)
        if trimmed != "" then result ++ [trimmed] else result)
      acc
    = acc ++ (lines.map (fun l => String.mk (trimSpace l))).filter
        (fun t => t != "") := by
  induction lines generalizing acc with
  | nil => simp
  | cons l ls ih =>
    rw [List.foldl_cons, ih, List.map_cons, List.filter_cons]
    by_cases h : String.mk (trimSpace l) = ""
    · simp [h]
    · simp [h, List.append_assoc]

/-- C4: `New(c1,m1,k1).Is(New(c2,m2,k2))` returns true exactly when the two
kind strings are equal, whatever the codes, messages and captured stacks. -/
theorem Is_New_New_iff_kind (c1 c2 : Int) (m1 m2 k1 k2 : String)
    (t1 t2 : List String) :
    Error.Is (some (New c1 m1 k1 t1)) (some (New c2 m2 k2 t2).toGoError)
      = (k1 == k2) := by
  simp [Error.Is, New_eq, Error.toGoError, asError]

/-- C5: against a non-structured target, `Is` returns the identity
comparison of the cause with the target when a cause is set, returns false
when no cause is set, and a nil receiver matches exactly the nil target;
identity is not deep equality (same message, different identity, no match). -/
theorem Is_plain_target_contract :
    (∀ (t : String) (c : Int) (m : String) (v : Option (List ValidationError))
        (st : List String) (g : GoError) (i : Nat) (msg : String),
        Error.Is (some ⟨t, c, m, v, some g, st⟩) (some (.plain i msg))
          = g.beq (.plain i msg))
    ∧ (∀ (t : String) (c : Int) (m : String) (v : Option (List ValidationError))
        (st : List String) (i : Nat) (msg : String),
        Error.Is (some ⟨t, c, m, v, none, st⟩) (some (.plain i msg)) = false)
    ∧ (∀ target : Option GoError, Error.Is none target = target.isNone)
    ∧ Error.Is (some ⟨"K", 1, "M", some [], some (.plain 1 "boom"), []⟩)
        (some (.plain 2 "boom")) = false := by
  refine ⟨?_, ?_, ?_, by decide⟩ <;> intros <;> simp [Error.Is, asError, goEq]

/-- C6: `Error()` returns the cause's description when a cause is set and
the receiver's message otherwise; a nil receiver yields the empty string;
consequently `New(code, message, kind).Error() = message`. -/
theorem description_contract :
    (∀ (t : String) (c : Int) (m : String) (v : Option (List ValidationError))
        (st : List String) (g : GoError),
        Error.Error_ (some ⟨t, c, m, v, some g, st⟩) = g.errorMsg)
    ∧ (∀ (t : String) (c : Int) (m : String) (v : Option (List ValidationError))
        (st : List String),
        Error.Error_ (some ⟨t, c, m, v, none, st⟩) = m)
    ∧ Error.Error_ none = ""
    ∧ (∀ (c : Int) (m k : String) (tr : List String),
        Error.Error_ (some (New c m k tr)) = m) := by
  refine ⟨?_, ?_, rfl, ?_⟩ <;> intros <;> simp [Error.Error_, New_eq]

/-- C7: `Wrap(c)` always yields kind "INTERNAL_SERVER_ERROR", code 500,
message "An internal server error occurred" and cause `c`; `Wrap(c).Unwrap()`
is `c`, and for non-nil `c`, `Wrap(c).Error()` is `c`'s description. -/
theorem Wrap_contract :
    (∀ (err : Option GoError) (tr tr2 : List String),
        (Wrap err tr tr2).Type_ = "INTERNAL_SERVER_ERROR"
        ∧ (Wrap err tr tr2).Code = 500
        ∧ (Wrap err tr tr2).Message = "An internal server error occurred"
        ∧ (Wrap err tr tr2).Err = err
        ∧ Error.Unwrap (some (Wrap err tr tr2)) = err)
    ∧ ∀ (g : GoError) (tr tr2 : List String),
        Error.Error_ (some (Wrap (some g) tr tr2)) = g.errorMsg := by
  constructor
  · intro err tr tr2
    simp [Wrap_eq, Error.Unwrap]
  · intro g tr tr2
    simp [Wrap_eq, Error.Error_]

/-- C9: every catalog entry carries its fixed kind/code/message (in
particular `ErrorNotFound` has code 404 and kind "NOT_FOUND"), and
`DefaultError()` yields code 500, kind "INTERNAL_SERVER_ERROR", the same
kind/code/message as `Wrap`, empty violations and no cause. -/
theorem catalog_DefaultError_contract :
    (∀ tr : List String,
        (ErrorNotFound tr).Code = 404 ∧ (ErrorNotFound tr).Type_ = "NOT_FOUND"
        ∧ (ErrorNotFound tr).Message = "Not found")
    ∧ (∀ tr : List String,
        (catalogInit tr).map (fun e => (e.Type_, e.Code, e.Message)) =
          [("BAD_REQUEST", 400, "Bad request"),
           ("UNAUTHORIZED", 401, "Unauthorized"),
           ("FORBIDDEN", 403, "Forbidden"),
           ("NOT_FOUND", 404, "Not found"),
           ("CONFLICT", 409, "Conflict"),
           ("UNPROCESSABLE_ENTITY", 422, "Unprocessable entity"),
           ("INTERNAL_SERVER_ERROR", 500, "Internal server error"),
           ("PANIC", 500, "Panic")])
    ∧ ∀ (tr : List String) (err : Option GoError) (tr1 tr2 : List String),
        (DefaultError tr).Code = 500
        ∧ (DefaultError tr).Type_ = "INTERNAL_SERVER_ERROR"
        ∧ (DefaultError tr).Violations = some []
        ∧ (DefaultError tr).Err = none
        ∧ (DefaultError tr).Type_ = (Wrap err tr1 tr2).Type_
        ∧ (DefaultError tr).Code = (Wrap err tr1 tr2).Code
        ∧ (DefaultError tr).Message = (Wrap err tr1 tr2).Message := by
  refine ⟨?_, ?_, ?_⟩ <;> intros <;>
    simp [ErrorNotFound, ErrorBadRequest, ErrorUnauthorized, ErrorForbidden,
      ErrorConflict, ErrorUnprocessableEntity, ErrorInternalServerError,
      ErrorPanic, catalogInit, New_eq, DefaultError, Wrap_eq]

/-- C10: when the target is itself a structured error, `Is` compares kinds
only and never consults the cause: `Wrap(c).Is(c)` for a structured `c` is
true exactly when `c`'s kind is "INTERNAL_SERVER_ERROR". -/
theorem Wrap_Is_structured_cause (ce : Error) (tr tr2 : List String) :
    Error.Is (some (Wrap (some ce.toGoError) tr tr2)) (some ce.toGoError)
      = (ce.Type_ == "INTERNAL_SERVER_ERROR") := by
  simp only [Wrap_eq, Error.Is, Error.toGoError, asError]
  by_cases h : ce.Type_ = "INTERNAL_SERVER_ERROR"
  · simp [h]
  · simp [h]
    exact fun hh => h hh.symm

/-- C1: the code contradicts the claim: `Violations(issues)` writes the
given issues into the shared catalog entry `ErrorUnprocessableEntity`
(whose violations were empty at initialization) and returns that very
entry's pointer, so a catalog entry is mutated and the result is not fresh. -/
theorem Violations_mutates_shared_catalog_entry :
    (Violations (catalogInit ["initFrame"])
        (some [⟨"REQUIRED", "email", "Email is required"⟩]) ["callFrame"]).fst
      = ueIdx
    ∧ ((Violations (catalogInit ["initFrame"])
        (some [⟨"REQUIRED", "email", "Email is required"⟩])
        ["callFrame"]).snd[ueIdx]?).map Error.Violations
      = some (some [⟨"REQUIRED", "email", "Email is required"⟩])
    ∧ ((catalogInit ["initFrame"])[ueIdx]?).map Error.Violations
      = some (some []) := by
  decide

/-- C2 fails as stated: the stack trace of the error returned by
`Violations` is the capture from catalog initialization, not the one
freshly captured at the call. -/
theorem Violations_stack_not_fresh :
    ((Violations (catalogInit ["initFrame"]) (some []) ["callFrame"]).snd[ueIdx]?).map
        Error.StackTraces = some ["initFrame"]
    ∧ (["initFrame"] : List String) ≠ ["callFrame"] := by
  decide

/-- C2 (amended): on the initialized catalog, `Violations(issues)` returns
the catalog entry's pointer, whose cell then has kind "UNPROCESSABLE_ENTITY",
code 422, message "Unprocessable entity", no cause, violations exactly the
given sequence, and the catalog-initialization stack trace (the call-time
capture only when the initialization capture was empty); the call is total. -/
theorem Violations_amended (tr0 tr : List String)
    (issues : Option (List ValidationError)) :
    (Violations (catalogInit tr0) issues tr).fst = ueIdx
    ∧ (Violations (catalogInit tr0) issues tr).snd[ueIdx]? =
        some ⟨"UNPROCESSABLE_ENTITY", 422, "Unprocessable entity", issues,
              none, if tr0.length = 0 then tr else tr0⟩ := by
  refine ⟨rfl, ?_⟩
  cases tr0 <;> rfl

/-- C3 fails as stated: `New` with an empty kind argument yields an empty
kind, and `Violations` with a nil sequence stores a nil (absent)
violations field. -/
theorem empty_kind_and_nil_violations :
    (New 0 "" "" []).Type_ = ""
    ∧ ((Violations (catalogInit ["initFrame"]) none ["callFrame"]).snd[ueIdx]?).map
        Error.Violations = some none := by
  decide

/-- C3 (amended): every constructor copies its kind argument verbatim, so
kind is non-empty exactly when the supplied kind is (and always for `Wrap`,
`DefaultError`, `Violations` and the catalog entries); violations is the
non-nil empty sequence for `New`, `Wrap`, `DefaultError` and every catalog
entry, while `Violations` stores the given sequence verbatim — nil when nil
is given. -/
theorem constructor_invariants_amended :
    (∀ (c : Int) (m k : String) (tr : List String),
        (New c m k tr).Type_ = k ∧ (New c m k tr).Violations = some [])
    ∧ (∀ (err : Option GoError) (tr tr2 : List String),
        (Wrap err tr tr2).Type_ = "INTERNAL_SERVER_ERROR"
        ∧ (Wrap err tr tr2).Violations = some [])
    ∧ (∀ tr : List String,
        (DefaultError tr).Type_ = "INTERNAL_SERVER_ERROR"
        ∧ (DefaultError tr).Violations = some [])
    ∧ (∀ tr : List String,
        (catalogInit tr).map Error.Violations = List.replicate 8 (some []))
    ∧ (∀ tr : List String,
        (catalogInit tr).map Error.Type_ =
          ["BAD_REQUEST", "UNAUTHORIZED", "FORBIDDEN", "NOT_FOUND",
           "CONFLICT", "UNPROCESSABLE_ENTITY", "INTERNAL_SERVER_ERROR",
           "PANIC"])
    ∧ ∀ (tr0 tr : List String) (issues : Option (List ValidationError)),
        ((Violations (catalogInit tr0) issues tr).snd[ueIdx]?).map
            Error.Violations = some issues
        ∧ ((Violations (catalogInit tr0) issues tr).snd[ueIdx]?).map
            Error.Type_ = some "UNPROCESSABLE_ENTITY" := by
  refine ⟨fun c m k tr => ⟨rfl, rfl⟩, fun err tr tr2 => ?_,
    fun tr => ⟨rfl, rfl⟩, fun tr => rfl, fun tr => rfl,
    fun tr0 tr issues => ?_⟩
  · cases tr <;> exact ⟨rfl, rfl⟩
  · cases tr0 <;> exact ⟨rfl, rfl⟩

/-- C8 fails as stated: on a realistic captured stack text the utility
returns more than 32 frames and keeps the frame of the capture utility
itself. -/
theorem captureStackTrace_not_capped :
    32 < (captureStackTrace goStackText).length
    ∧ "github.com/andryhardiyanto/go-errors.captureStackTrace()"
        ∈ captureStackTrace goStackText := by
  decide

/-- C8 (amended): the capture utility is total and returns, in order, the
trimmed non-empty lines of the captured stack text; the frame count is
bounded by the line count of that text — not by 32, and without excluding
the utility's or constructor's frames — and an empty capture yields the
empty sequence. -/
theorem captureStackTrace_amended (s : String) :
    captureStackTrace s
      = ((splitNewline s.data).map (fun l => String.mk (trimSpace l))).filter
          (fun t => t != "")
    ∧ (captureStackTrace s).length ≤ (splitNewline s.data).length
    ∧ captureStackTrace "" = [] := by
  have h : captureStackTrace s
      = ((splitNewline s.data).map (fun l => String.mk (trimSpace l))).filter
          (fun t => t != "") := by
    have hg := captureStackTrace_go (splitNewline s.data) []
    simpa [captureStackTrace] using hg
  refine ⟨h, ?_, by decide⟩
  rw [h]
  exact le_trans (List.length_filter_le _ _) (by simp)

end GoErrors
